import Mathlib

/-!
# Verification of the plasma-etch prediction engine

This file is a shallow embedding, in Lean 4, of the prediction engine found in
`src/server/routes.ts` (the canonical 3D variant: `simulateRadicalDistribution`,
`predictQualityMetrics`, `generateRecommendations`, `generateStabilityTimeSeries`,
`calculateRoiMetrics`, `generatePrediction`).

Modelling conventions:

* JavaScript `number` arithmetic is embedded as exact rational arithmetic (`ℚ`).
* The transcendental library functions `Math.exp`, `Math.sin`, `Math.sqrt`,
  `Math.log10` and the constant `Math.PI` are modelled as an abstract oracle
  (`MathOracle`): uninterpreted functions `ℚ → ℚ` and an abstract rational
  constant.  Every theorem below is proved for *all* oracles, so it holds in
  particular for the actual floating-point implementations of those functions
  (insofar as rational arithmetic mirrors float arithmetic; none of the proved
  properties depends on float rounding).
* Calls to `Math.random()` are modelled as an explicit noise source
  (`NoiseSource`) giving one abstract rational per call site (grid cells are
  indexed by their coordinates, stability samples by their index).  Theorems
  quantify over all noise outcomes.
* `Number(x.toFixed(d))` is modelled by `roundTo d`: rounding to `d` decimal
  digits, ties toward `+∞`, exactly as the ECMAScript `toFixed` specification
  ("if there are two such n, pick the larger n").
* `randomUUID()` and `new Date().toISOString()` are external identity inputs;
  `generatePrediction` receives them as arguments.
* `params.pulseDutyCycle || 50` is modelled as `Option.getD 50`; for validated
  input (duty cycle in [10,90]) the two coincide, since a present duty cycle is
  never the falsy value 0.
* `Array.prototype.sort` is stable per the ECMAScript 2019 specification; it is
  modelled by the stable insertion sort `stableSortByKey`.
* The source field name `centerEdgeRatio` is rendered here as
  `centerEdgeRatioVal` (a purely lexical renaming).
-/

namespace Etch

/-- `Number(x.toFixed(d))`: round `x` to `d` decimal digits, ties toward `+∞`. -/
def roundTo (d : ℕ) (q : ℚ) : ℚ :=
  (⌊q * 10 ^ d + 1 / 2⌋ : ℚ) / 10 ^ d

/-- Process parameters (`processParametersSchema` in `src/shared/schema.ts`). -/
structure ProcessParameters where
  rfPower : ℚ
  pressure : ℚ
  gasFlowCF4 : ℚ
  gasFlowO2 : ℚ
  gasFlowAr : ℚ
  pulseEnabled : Bool
  pulseDutyCycle : Option ℚ
  pulseFrequency : Option ℚ
  processTime : ℚ
  chamberRfHours : Option ℚ
deriving DecidableEq

/-- The documented validation bounds of `processParametersSchema`. -/
def ValidParams (P : ProcessParameters) : Prop :=
  100 ≤ P.rfPower ∧ P.rfPower ≤ 2000 ∧
  1 ≤ P.pressure ∧ P.pressure ≤ 100 ∧
  0 ≤ P.gasFlowCF4 ∧ P.gasFlowCF4 ≤ 200 ∧
  0 ≤ P.gasFlowO2 ∧ P.gasFlowO2 ≤ 100 ∧
  0 ≤ P.gasFlowAr ∧ P.gasFlowAr ≤ 200 ∧
  (∀ d, P.pulseDutyCycle = some d → 10 ≤ d ∧ d ≤ 90) ∧
  (∀ f, P.pulseFrequency = some f → 100 ≤ f ∧ f ≤ 10000) ∧
  10 ≤ P.processTime ∧ P.processTime ≤ 600 ∧
  (∀ h, P.chamberRfHours = some h → 0 ≤ h ∧ h ≤ 500)

/-- Abstract oracle for the transcendental float functions used by the engine. -/
structure MathOracle where
  exp : ℚ → ℚ
  sin : ℚ → ℚ
  sqrt : ℚ → ℚ
  log10 : ℚ → ℚ
  pi : ℚ

/-- Abstract per-call-site outcomes of `Math.random()` (each in `[0,1)` in a
real run; the theorems do not need that bound thanks to the engine's clamps). -/
structure NoiseSource where
  cellRand : ℕ → ℕ → ℕ → ℚ
  cdRand : ℚ
  riskRand : ℚ
  stabRand : ℕ → ℚ

/-- Defect risk category. -/
inductive DefectRisk where
  | low
  | medium
  | high
deriving DecidableEq

/-- Tri-state safety status. -/
inductive Status where
  | safe
  | warning
  | danger
deriving DecidableEq

/-- Quality metrics (`qualityMetricsSchema`). -/
structure QualityMetrics where
  etchUniformity : ℚ
  cdShift : ℚ
  defectRisk : DefectRisk
  defectRiskScore : ℚ
deriving DecidableEq

/-- Radical distribution (`radicalDistributionSchema`, 3D digital-twin form).
The source field `centerEdgeRatio` is named `centerEdgeRatioVal` here. -/
structure RadicalDistribution where
  grid3D : List (List (List ℚ))
  grid : List (List ℚ)
  dimensions : ℕ × ℕ × ℕ
  centerEdgeRatioVal : ℚ
  topBottomGradient : ℚ
  highEnergyFraction : ℚ
  residenceTimeIndex : ℚ
  verticalUniformity : ℚ
  wallLossFactor : ℚ
deriving DecidableEq

/-- Recommendation priority. -/
inductive Priority where
  | high
  | medium
  | low
deriving DecidableEq

/-- Parameter adjustment recommendation (`parameterRecommendationSchema`). -/
structure ParameterRecommendation where
  parameter : String
  currentValue : ℚ
  recommendedValue : ℚ
  reason : String
  priority : Priority
deriving DecidableEq

/-- One sample of the stability time series (`stabilityDataPointSchema`). -/
structure StabilityDataPoint where
  time : ℚ
  radicalDensity : ℚ
  uniformity : ℚ
  temperature : ℚ
deriving DecidableEq

/-- ROI metrics (`roiMetricsSchema`). -/
structure RoiMetrics where
  estimatedBatchProfit : ℚ
  potentialLossReduction : ℚ
  waferCost : ℚ
  batchSize : ℚ
  yieldRate : ℚ
deriving DecidableEq

/-- The assembled prediction result (`predictionResultSchema`).  The engine
always fills `roiMetrics` and `stabilityTimeSeries`; `recommendations` is
`none` exactly when the generated list is empty. -/
structure PredictionResult where
  id : String
  timestamp : String
  parameters : ProcessParameters
  radicalDistribution : RadicalDistribution
  qualityMetrics : QualityMetrics
  roiMetrics : RoiMetrics
  stabilityTimeSeries : List StabilityDataPoint
  status : Status
  recommendations : Option (List ParameterRecommendation)

/-! ## Parameter normalizer (routes.ts lines 92-125) -/

def gridX : ℕ := 20

def gridY : ℕ := 20

def gridZ : ℕ := 10

/-- `const midZ = Math.floor(gridZ / 2)` -/
def midZ : ℕ := gridZ / 2

def powerFactor (P : ProcessParameters) : ℚ := P.rfPower / 1000

def pressureFactor (P : ProcessParameters) : ℚ := P.pressure / 50

def cf4Flow (P : ProcessParameters) : ℚ := P.gasFlowCF4 / 100

def o2Flow (P : ProcessParameters) : ℚ := P.gasFlowO2 / 50

def arFlow (P : ProcessParameters) : ℚ := P.gasFlowAr / 100

/-- `const rfHours = params.chamberRfHours || 0` -/
def rfHoursVal (P : ProcessParameters) : ℚ := P.chamberRfHours.getD 0

/-- `agingFactor = 1 + (rfHours / 500) * 0.5` -/
def agingFactor (P : ProcessParameters) : ℚ := 1 + rfHoursVal P / 500 * 0.5

/-- `agingEdgePenalty = 1 - (rfHours / 500) * 0.3` -/
def agingEdgePenalty (P : ProcessParameters) : ℚ := 1 - rfHoursVal P / 500 * 0.3

/-- `baseGeneration = powerFactor * (1 + cf4Flow * 0.5) * (1 - pressureFactor * 0.3)` -/
def baseGeneration (P : ProcessParameters) : ℚ :=
  powerFactor P * (1 + cf4Flow P * 0.5) * (1 - pressureFactor P * 0.3)

/-- Pulse mode modulation (uses `Math.log10` through the oracle). -/
def pulseModulation (O : MathOracle) (P : ProcessParameters) : ℚ :=
  if P.pulseEnabled then
    P.pulseDutyCycle.getD 50 / 100 * (1 + O.log10 (P.pulseFrequency.getD 1000 / 1000) * 0.1)
  else 1

/-- `diffusionCoeff = 0.5 / pressureFactor` (defined by the source; unused by
the grid loops). -/
def diffusionCoeff (P : ProcessParameters) : ℚ := 0.5 / pressureFactor P

/-- `wallLossCoeff = (0.3 + (1 - pressureFactor) * 0.2) * agingFactor` -/
def wallLossCoeff (P : ProcessParameters) : ℚ :=
  (0.3 + (1 - pressureFactor P) * 0.2) * agingFactor P

/-- `injectionDecayRate = 0.2 + (1 - pressureFactor) * 0.5 + arFlow * 0.15` -/
def injectionDecayRate (P : ProcessParameters) : ℚ :=
  0.2 + (1 - pressureFactor P) * 0.5 + arFlow P * 0.15

/-! ## Radical field simulator (routes.ts lines 127-234) -/

/-- The value of grid cell `[k][i][j]` (height, depth, width), exactly as
computed by the loop body of `simulateRadicalDistribution`. -/
def cellDensity (O : MathOracle) (N : NoiseSource) (P : ProcessParameters)
    (k i j : ℕ) : ℚ :=
  let z : ℚ := (k : ℚ) / ((gridZ : ℚ) - 1)
  let heightDiffusion := O.exp (-injectionDecayRate P * (1 - z))
  let waferLoss := 1 - 0.15 * O.exp (-4 * z)
  let rfCouplingProfile := 1 + 0.2 * O.sin (O.pi * z)
  let y : ℚ := ((i : ℚ) - (gridY : ℚ) / 2) / ((gridY : ℚ) / 2)
  let x : ℚ := ((j : ℚ) - (gridX : ℚ) / 2) / ((gridX : ℚ) / 2)
  let r := O.sqrt (x * x + y * y)
  let rWall := max |x| |y|
  let radialDecay := 0.2 + (1 - pressureFactor P) * 0.3 + powerFactor P * 0.2
  let radialProfile := O.exp (-r * r * radialDecay)
  let wallLoss := O.exp (-wallLossCoeff P * rWall * rWall * 0.6 * (1 + 0.2 * (1 - z)))
  let pressureEdgeBoost :=
    pressureFactor P * 0.25 * (1 - O.exp (-r * r * 2)) * agingEdgePenalty P
  let d0 := baseGeneration P * pulseModulation O P *
    (radialProfile * heightDiffusion * waferLoss * rfCouplingProfile * wallLoss)
  let d1 := d0 + pressureEdgeBoost * baseGeneration P * heightDiffusion
  let d2 := if powerFactor P > 1.2 then
      d1 + 0.1 * (r * r) * (powerFactor P - 1.2) * heightDiffusion
    else d1
  let noise := (N.cellRand k i j - 0.5) * 0.03 * d2
  roundTo 4 (max 0.05 (d2 + noise))

/-- The 3D grid `[z][y][x]`, sized `gridZ × gridY × gridX`. -/
def mkGrid3D (O : MathOracle) (N : NoiseSource) (P : ProcessParameters) :
    List (List (List ℚ)) :=
  (List.range gridZ).map fun k =>
    (List.range gridY).map fun i =>
      (List.range gridX).map fun j => cellDensity O N P k i j

/-- Mean of the four mid-edge cells at mid-height (`avgEdge`). -/
def avgEdgeVal (O : MathOracle) (N : NoiseSource) (P : ProcessParameters) : ℚ :=
  (cellDensity O N P midZ 0 10 + cellDensity O N P midZ 19 10 +
   cellDensity O N P midZ 10 0 + cellDensity O N P midZ 10 19) / 4

/-- Sum of all cells of layer `k` (`layer.flat().reduce((a, b) => a + b, 0)`). -/
def layerSumVal (O : MathOracle) (N : NoiseSource) (P : ProcessParameters)
    (k : ℕ) : ℚ :=
  ((List.range gridY).map fun i =>
    ((List.range gridX).map fun j => cellDensity O N P k i j).sum).sum

/-- `avgBottom`: mean of the bottom layer (`k = 0`). -/
def avgBottomVal (O : MathOracle) (N : NoiseSource) (P : ProcessParameters) : ℚ :=
  layerSumVal O N P 0 / (gridX * gridY : ℕ)

/-- `avgTop`: mean of the top layer (`k = gridZ - 1`). -/
def avgTopVal (O : MathOracle) (N : NoiseSource) (P : ProcessParameters) : ℚ :=
  layerSumVal O N P (gridZ - 1) / (gridX * gridY : ℕ)

/-- `allValues = grid3D.flat(2)` -/
def allCellsVal (O : MathOracle) (N : NoiseSource) (P : ProcessParameters) :
    List ℚ :=
  (mkGrid3D O N P).flatten.flatten

/-- `mean3D`: population mean of all cells. -/
def mean3DVal (O : MathOracle) (N : NoiseSource) (P : ProcessParameters) : ℚ :=
  (allCellsVal O N P).sum / ((allCellsVal O N P).length : ℚ)

/-- `variance3D`: population variance of all cells. -/
def variance3DVal (O : MathOracle) (N : NoiseSource) (P : ProcessParameters) : ℚ :=
  ((allCellsVal O N P).map fun v => (v - mean3DVal O N P) ^ 2).sum /
    ((allCellsVal O N P).length : ℚ)

/-- `centerAvg`: mean of the center column over all layers. -/
def centerAvgVal (O : MathOracle) (N : NoiseSource) (P : ProcessParameters) : ℚ :=
  ((List.range gridZ).map fun k => cellDensity O N P k 10 10).sum / (gridZ : ℚ)

/-- `wallAvg`: mean over all layers of the four wall-midpoint cells. -/
def wallAvgVal (O : MathOracle) (N : NoiseSource) (P : ProcessParameters) : ℚ :=
  ((List.range gridZ).map fun k =>
    (cellDensity O N P k 0 10 + cellDensity O N P k 19 10 +
     cellDensity O N P k 10 0 + cellDensity O N P k 10 19) / 4).sum / (gridZ : ℚ)

/-- `simulateRadicalDistribution` (routes.ts lines 85-234). -/
def simulateRadicalDistribution (O : MathOracle) (N : NoiseSource)
    (P : ProcessParameters) : RadicalDistribution :=
  { grid3D := mkGrid3D O N P
    grid := (mkGrid3D O N P).getD midZ []
    dimensions := (gridX, gridY, gridZ)
    centerEdgeRatioVal := roundTo 3 (cellDensity O N P midZ 10 10 / avgEdgeVal O N P)
    topBottomGradient := roundTo 3 (avgTopVal O N P / avgBottomVal O N P)
    highEnergyFraction := roundTo 3 (0.15 + powerFactor P * 0.2 - pressureFactor P * 0.1)
    residenceTimeIndex := roundTo 2 (10 / pressureFactor P * (1 + arFlow P * 0.2))
    verticalUniformity :=
      roundTo 1 (100 - O.sqrt (variance3DVal O N P) / mean3DVal O N P * 100)
    wallLossFactor := roundTo 3 (1 - wallAvgVal O N P / centerAvgVal O N P) }

/-! ## Quality predictor (routes.ts lines 236-327) -/

/-- The tri-state status rule (routes.ts lines 308-316), applied to the
clamped (unrounded) uniformity, the rounded cdShift and the risk category. -/
def computeStatus (uniformity cdShift : ℚ) (defectRisk : DefectRisk) : Status :=
  if 94 ≤ uniformity ∧ |cdShift| ≤ 2 ∧ defectRisk = DefectRisk.low then
    Status.safe
  else if 88 ≤ uniformity ∧ |cdShift| ≤ 4 ∧ defectRisk ≠ DefectRisk.high then
    Status.warning
  else
    Status.danger

/-- The uniformity value accumulated by `predictQualityMetrics` before the
final clamp (routes.ts lines 241-273): base deviation penalties, the
exponential center-heavy penalty, the edge-heavy penalty, the pulse bonus
and the high-pressure penalty, applied in source order. -/
def uniformityRaw (O : MathOracle) (P : ProcessParameters)
    (dist : RadicalDistribution) : ℚ :=
  let ratioDeviation := |dist.centerEdgeRatioVal - 1|
  let gradientDeviation := |dist.topBottomGradient - 1|
  let u0 := 100 - ratioDeviation * 15 - gradientDeviation * 10
  let u1 := if dist.centerEdgeRatioVal > 1.5 then
      let excessVal := dist.centerEdgeRatioVal - 1.5
      u0 * O.exp (-2.5 * excessVal * excessVal) - excessVal * 25
    else u0
  let u2 := if dist.centerEdgeRatioVal < 0.7 then
      u1 - (0.7 - dist.centerEdgeRatioVal) * 30
    else u1
  let u3 := if P.pulseEnabled then u2 + 2 else u2
  if P.pressure > 60 then u3 - (P.pressure - 60) * 0.1 else u3

/-- `predictQualityMetrics` (routes.ts lines 237-327). -/
def predictQualityMetrics (O : MathOracle) (N : NoiseSource)
    (P : ProcessParameters) (dist : RadicalDistribution) :
    QualityMetrics × Status :=
  let ratioDeviation := |dist.centerEdgeRatioVal - 1|
  let gradientDeviation := |dist.topBottomGradient - 1|
  let uniformity := max 50 (min 99.5 (uniformityRaw O P dist))
  let cd0 := (dist.centerEdgeRatioVal - 1) * 2 + (dist.highEnergyFraction - 0.25) * 3
  let cd1 := if dist.centerEdgeRatioVal > 1.5 then
      cd0 + (dist.centerEdgeRatioVal - 1.5) * 4
    else cd0
  let cdShift := roundTo 2 (cd1 + (N.cdRand - 0.5) * 0.5)
  let risk0 := ratioDeviation * 30 + gradientDeviation * 20 +
    max 0 (dist.highEnergyFraction - 0.35) * 50 +
    max 0 (P.rfPower - 1500) / 50 + max 0 (10 - P.pressure) * 2
  let risk1 := if dist.centerEdgeRatioVal > 1.5 then
      risk0 + (dist.centerEdgeRatioVal - 1.5) * 40
    else risk0
  let riskScore := min 100 (max 0 (risk1 + (N.riskRand - 0.5) * 5))
  let defectRisk := if riskScore < 25 then DefectRisk.low
    else if riskScore < 55 then DefectRisk.medium
    else DefectRisk.high
  ({ etchUniformity := roundTo 1 uniformity
     cdShift := cdShift
     defectRisk := defectRisk
     defectRiskScore := roundTo 1 riskScore },
   computeStatus uniformity cdShift defectRisk)

/-! ## Recommendation engine (routes.ts lines 329-458) -/

/-- `const priorityOrder = { high: 0, medium: 1, low: 2 }` -/
def priorityOrder : Priority → ℕ
  | Priority.high => 0
  | Priority.medium => 1
  | Priority.low => 2

/-- Stable insertion step: `x` goes after every element with a strictly
smaller key and before the first element with a key `≥` its own. -/
def insertByKey {α : Type} (key : α → ℕ) (x : α) : List α → List α
  | [] => [x]
  | y :: ys => if key y < key x then y :: insertByKey key x ys else x :: y :: ys

/-- Stable sort by a natural-number key; models the (stable, per ES2019)
`Array.prototype.sort` with comparator `(a, b) => key(a) - key(b)`. -/
def stableSortByKey {α : Type} (key : α → ℕ) : List α → List α
  | [] => []
  | x :: xs => insertByKey key x (stableSortByKey key xs)

/-- The list of triggered recommendations, in trigger-evaluation order,
before sorting and truncation (routes.ts lines 336-451). -/
def collectRecommendations (P : ProcessParameters) (dist : RadicalDistribution)
    (m : QualityMetrics) : List ParameterRecommendation :=
  (if dist.centerEdgeRatioVal > 1.5 then
    (if P.pressure < 30 then
      [{ parameter := "Pressure", currentValue := P.pressure,
         recommendedValue := min (P.pressure + 10) 35,
         reason := "Center/Edge Ratio가 1.5를 초과했습니다. 압력을 높이면 라디칼 확산이 개선되어 균일도가 향상됩니다.",
         priority := Priority.high }]
     else []) ++
    (if P.rfPower > 800 then
      [{ parameter := "RF Power", currentValue := P.rfPower,
         recommendedValue := max (P.rfPower - 200) 500,
         reason := "RF Power가 높아 중앙부 플라즈마 밀도가 과도합니다. Power를 낮추면 Center/Edge Ratio가 개선됩니다.",
         priority := Priority.high }]
     else []) ++
    (if P.pulseEnabled = false then
      [{ parameter := "Pulse Mode", currentValue := 0, recommendedValue := 1,
         reason := "펄스 모드를 활성화하면 플라즈마 분포가 균일해지고 Center/Edge Ratio가 감소합니다.",
         priority := Priority.medium }]
     else [])
   else []) ++
  (if m.etchUniformity < 88 then
    (if P.gasFlowAr < 80 then
      [{ parameter := "Ar Flow", currentValue := P.gasFlowAr,
         recommendedValue := min (P.gasFlowAr + 30) 120,
         reason := "Ar 유량을 늘리면 플라즈마 안정성이 향상되어 에칭 균일도가 개선됩니다.",
         priority := Priority.medium }]
     else [])
   else []) ++
  (if |m.cdShift| > 3 then
    (if dist.highEnergyFraction > 0.35 then
      [{ parameter := "RF Power", currentValue := P.rfPower,
         recommendedValue := max (P.rfPower - 150) 400,
         reason := "고에너지 라디칼 비율이 높아 CD Shift가 크게 발생합니다. RF Power를 낮춰주세요.",
         priority := Priority.high }]
     else []) ++
    (if P.gasFlowO2 < 20 ∧ m.cdShift > 0 then
      [{ parameter := "O2 Flow", currentValue := P.gasFlowO2,
         recommendedValue := min (P.gasFlowO2 + 10) 30,
         reason := "O2 유량을 늘리면 에칭 속도가 조절되어 CD Shift가 감소합니다.",
         priority := Priority.medium }]
     else [])
   else []) ++
  (if m.defectRisk = DefectRisk.high then
    (if P.pressure < 15 then
      [{ parameter := "Pressure", currentValue := P.pressure,
         recommendedValue := min (P.pressure + 8) 25,
         reason := "저압 조건에서 결함 위험이 높습니다. 압력을 높이면 이온 에너지가 감소하여 결함이 줄어듭니다.",
         priority := Priority.high }]
     else []) ++
    (if P.gasFlowCF4 > 80 then
      [{ parameter := "CF4 Flow", currentValue := P.gasFlowCF4,
         recommendedValue := max (P.gasFlowCF4 - 20) 50,
         reason := "CF4 유량이 과도합니다. 유량을 줄이면 에칭 공격성이 감소하여 결함 위험이 낮아집니다.",
         priority := Priority.medium }]
     else [])
   else []) ++
  (if |dist.topBottomGradient - 1| > 0.3 then
    (if P.gasFlowAr < 100 then
      [{ parameter := "Ar Flow", currentValue := P.gasFlowAr,
         recommendedValue := min (P.gasFlowAr + 25) 130,
         reason := "상하 그래디언트가 큽니다. Ar 유량을 늘려 수직 분포를 개선하세요.",
         priority := Priority.low }]
     else [])
   else [])

/-- `generateRecommendations` (routes.ts lines 330-458): empty when safe,
otherwise the first 3 of the stably priority-sorted trigger list. -/
def generateRecommendations (P : ProcessParameters) (dist : RadicalDistribution)
    (m : QualityMetrics) (status : Status) : List ParameterRecommendation :=
  if status = Status.safe then []
  else
    (stableSortByKey (fun rc => priorityOrder rc.priority)
      (collectRecommendations P dist m)).take 3

/-! ## Stability time-series generator (routes.ts lines 460-528) -/

/-- `numPoints = Math.min(60, Math.floor(processTime / 5) + 1)` -/
def numPoints (P : ProcessParameters) : ℕ :=
  min 60 ((⌊P.processTime / 5⌋).toNat + 1)

/-- `agingInstability = (rfHours / 500) * 0.15` -/
def agingInstability (P : ProcessParameters) : ℚ := rfHoursVal P / 500 * 0.15

/-- `pulseStability = pulseEnabled ? 0.98 : 0.85` -/
def pulseStability (P : ProcessParameters) : ℚ :=
  if P.pulseEnabled then 0.98 else 0.85

/-- `pressureStability = Math.min(1, pressure / 30)` (defined by the source;
unused by the loop body). -/
def pressureStability (P : ProcessParameters) : ℚ := min 1 (P.pressure / 30)

/-- The `i`-th stability sample, exactly as computed by the loop body of
`generateStabilityTimeSeries`. -/
def stabilityPoint (O : MathOracle) (N : NoiseSource) (P : ProcessParameters)
    (dist : RadicalDistribution) (m : QualityMetrics) (i : ℕ) :
    StabilityDataPoint :=
  let baseUniformity := m.etchUniformity
  let baseDensity := ((dist.grid3D.getD 5 []).getD 10 []).getD 10 0
  let time := ((i : ℚ) / ((numPoints P : ℚ) - 1)) * P.processTime
  let t := time / P.processTime
  let phase : ℚ × ℚ × ℚ :=
    if t < 0.1 then
      let dmu := 1 - O.exp (-t * 30)
      (dmu, -5 * (1 - dmu), 0.3 + 0.4 * t / 0.1)
    else if t < 0.8 then
      let driftPhase := (t - 0.1) / 0.7
      (1 + agingInstability P * O.sin (driftPhase * O.pi),
       -agingInstability P * 10 * O.sin (driftPhase * O.pi * 2),
       0.7 + 0.2 * driftPhase)
    else
      (1 + agingInstability P * 0.3,
       -agingInstability P * 3,
       0.85 + 0.1 * ((t - 0.8) / 0.2))
  let densityMultiplier := phase.1 * pulseStability P
  let uniformityDelta := phase.2.1
  let temperature := phase.2.2
  let noise := (N.stabRand i - 0.5) * 0.02 * (1 + agingInstability P)
  { time := roundTo 1 time
    radicalDensity := roundTo 4 (baseDensity * densityMultiplier * (1 + noise))
    uniformity := roundTo 1 (max 50 (min 100 (baseUniformity + uniformityDelta + noise * 10)))
    temperature := roundTo 3 (min 1 (max 0 (temperature + noise * 0.1))) }

/-- `generateStabilityTimeSeries` (routes.ts lines 461-528). -/
def generateStabilityTimeSeries (O : MathOracle) (N : NoiseSource)
    (P : ProcessParameters) (dist : RadicalDistribution) (m : QualityMetrics) :
    List StabilityDataPoint :=
  (List.range (numPoints P)).map (stabilityPoint O N P dist m)

/-! ## ROI calculator (routes.ts lines 530-582) -/

/-- `calculateRoiMetrics` (routes.ts lines 531-582). -/
def calculateRoiMetrics (P : ProcessParameters) (m : QualityMetrics)
    (status : Status) : RoiMetrics :=
  let waferCost : ℚ := 150
  let batchSize : ℚ := 25
  let baseSellingPrice : ℚ := 200
  let y0 := m.etchUniformity * 0.8
  let y1 := if m.defectRisk = DefectRisk.medium then y0 - 10
    else if m.defectRisk = DefectRisk.high then y0 - 25
    else y0
  let y2 := y1 - |m.cdShift| * 2
  let yieldRate := max 30 (min 99 y2)
  let goodWafers : ℚ := (⌊batchSize * yieldRate / 100⌋ : ℚ)
  let scrappedWafers := batchSize - goodWafers
  let revenue := goodWafers * baseSellingPrice
  let materialCost := batchSize * waferCost
  let scrapLoss := scrappedWafers * waferCost * 0.5
  let estimatedBatchProfit := revenue - materialCost - scrapLoss
  let optimalYield : ℚ := 98
  let optimalProfit :=
    (⌊batchSize * optimalYield / 100⌋ : ℚ) * baseSellingPrice - batchSize * waferCost
  let potentialLossReduction :=
    if status = Status.danger then optimalProfit - estimatedBatchProfit
    else if status = Status.warning then (optimalProfit - estimatedBatchProfit) * 0.5
    else 0
  { estimatedBatchProfit := roundTo 0 estimatedBatchProfit
    potentialLossReduction := roundTo 0 potentialLossReduction
    waferCost := waferCost
    batchSize := batchSize
    yieldRate := roundTo 1 yieldRate }

/-! ## Assembly (routes.ts lines 584-602) -/

/-- Quality metrics and status of the full pipeline for given inputs. -/
def pipelineQuality (O : MathOracle) (N : NoiseSource) (P : ProcessParameters) :
    QualityMetrics × Status :=
  predictQualityMetrics O N P (simulateRadicalDistribution O N P)

/-- Recommendation list of the full pipeline for given inputs. -/
def pipelineRecommendations (O : MathOracle) (N : NoiseSource)
    (P : ProcessParameters) : List ParameterRecommendation :=
  generateRecommendations P (simulateRadicalDistribution O N P)
    (pipelineQuality O N P).1 (pipelineQuality O N P).2

/-- `generatePrediction` (routes.ts lines 584-602).  `randomUUID()` and the
timestamp are external inputs. -/
def generatePrediction (O : MathOracle) (N : NoiseSource) (P : ProcessParameters)
    (id timestamp : String) : PredictionResult :=
  let radicalDistribution := simulateRadicalDistribution O N P
  let qs := pipelineQuality O N P
  let recommendations := pipelineRecommendations O N P
  { id := id
    timestamp := timestamp
    parameters := P
    radicalDistribution := radicalDistribution
    qualityMetrics := qs.1
    roiMetrics := calculateRoiMetrics P qs.1 qs.2
    stabilityTimeSeries := generateStabilityTimeSeries O N P radicalDistribution qs.1
    status := qs.2
    recommendations := if 0 < recommendations.length then some recommendations else none }

end Etch

namespace Etch

/-! ## Basic lemmas about `roundTo` -/

/-- Rounding cannot fall below a bound that is exact at `d` decimal digits. -/
theorem roundTo_ge {q : ℚ} {m : ℤ} {d : ℕ} (h : (m : ℚ) / 10 ^ d ≤ q) :
    (m : ℚ) / 10 ^ d ≤ roundTo d q := by
  unfold roundTo
  have hp : (0 : ℚ) < 10 ^ d := by positivity
  rw [div_le_div_iff_of_pos_right hp]
  have h1 : (m : ℚ) ≤ q * 10 ^ d := by
    rw [div_le_iff₀ hp] at h
    exact h
  exact_mod_cast Int.le_floor.mpr (by push_cast; linarith)

/-- Rounding cannot rise above a bound that is exact at `d` decimal digits. -/
theorem roundTo_le {q : ℚ} {m : ℤ} {d : ℕ} (h : q ≤ (m : ℚ) / 10 ^ d) :
    roundTo d q ≤ (m : ℚ) / 10 ^ d := by
  unfold roundTo
  have hp : (0 : ℚ) < 10 ^ d := by positivity
  rw [div_le_div_iff_of_pos_right hp]
  have h1 : q * 10 ^ d ≤ (m : ℚ) := by
    rw [le_div_iff₀ hp] at h
    exact h
  have h2 : ⌊q * 10 ^ d + 1 / 2⌋ < m + 1 := by
    apply Int.floor_lt.mpr
    push_cast
    linarith
  exact_mod_cast Int.lt_add_one_iff.mp h2

/-! ## Lower bounds for sums of grid cells -/

/-- The 0.05 floor survives 4-digit rounding, whatever the floored value. -/
theorem roundTo4_max_ge (q : ℚ) : (0.05 : ℚ) ≤ roundTo 4 (max 0.05 q) := by
  have h : ((500 : ℤ) : ℚ) / 10 ^ 4 ≤ roundTo 4 (max 0.05 q) :=
    roundTo_ge (le_trans (by norm_num) (le_max_left _ _))
  calc (0.05 : ℚ) = ((500 : ℤ) : ℚ) / 10 ^ 4 := by norm_num
    _ ≤ roundTo 4 (max 0.05 q) := h

/-- Every grid cell is at least the floor value 0.05: the source floors the
cell at 0.05 after applying noise, and rounding to 4 digits preserves it. -/
theorem cellDensity_ge (O : MathOracle) (N : NoiseSource) (P : ProcessParameters)
    (k i j : ℕ) : (0.05 : ℚ) ≤ cellDensity O N P k i j := by
  unfold cellDensity
  exact roundTo4_max_ge _

theorem sum_map_range_ge (f : ℕ → ℚ) (c : ℚ) (n : ℕ) (h : ∀ i, c ≤ f i) :
    (n : ℚ) * c ≤ ((List.range n).map f).sum := by
  induction n with
  | zero => simp
  | succ n ih =>
    rw [List.range_succ, List.map_append, List.sum_append]
    push_cast
    have := h n
    simp only [List.map_cons, List.map_nil, List.sum_cons, List.sum_nil]
    linarith

theorem sum_ge_of_forall_mem (l : List ℚ) (c : ℚ) (h : ∀ v ∈ l, c ≤ v) :
    (l.length : ℚ) * c ≤ l.sum := by
  induction l with
  | nil => simp
  | cons a t ih =>
    have ha := h a (List.mem_cons_self a t)
    have ht := ih fun v hv => h v (List.mem_cons_of_mem a hv)
    simp only [List.length_cons, List.sum_cons]
    push_cast
    linarith

end Etch

namespace Etch

/-! ## Lemmas about the stable key sort -/

theorem mem_insertByKey {α : Type} (key : α → ℕ) (x a : α) :
    ∀ l : List α, a ∈ insertByKey key x l ↔ a = x ∨ a ∈ l := by
  intro l
  induction l with
  | nil => simp [insertByKey]
  | cons y ys ih =>
    by_cases hc : key y < key x
    · simp only [insertByKey, if_pos hc, List.mem_cons, ih]
      tauto
    · simp only [insertByKey, if_neg hc, List.mem_cons]

theorem pairwise_insertByKey {α : Type} (key : α → ℕ) (x : α) :
    ∀ l : List α, l.Pairwise (fun a b => key a ≤ key b) →
      (insertByKey key x l).Pairwise (fun a b => key a ≤ key b) := by
  intro l
  induction l with
  | nil => intro _; simp [insertByKey]
  | cons y ys ih =>
    intro hp
    rw [List.pairwise_cons] at hp
    by_cases hc : key y < key x
    · rw [insertByKey, if_pos hc, List.pairwise_cons]
      refine ⟨fun a ha => ?_, ih hp.2⟩
      rcases (mem_insertByKey key x a ys).mp ha with rfl | hmem
      · exact le_of_lt hc
      · exact hp.1 a hmem
    · rw [insertByKey, if_neg hc, List.pairwise_cons, List.pairwise_cons]
      refine ⟨fun a ha => ?_, hp.1, hp.2⟩
      rcases List.mem_cons.mp ha with rfl | hmem
      · exact Nat.le_of_not_lt hc
      · exact le_trans (Nat.le_of_not_lt hc) (hp.1 a hmem)

theorem pairwise_stableSortByKey {α : Type} (key : α → ℕ) :
    ∀ l : List α,
      (stableSortByKey key l).Pairwise (fun a b => key a ≤ key b) := by
  intro l
  induction l with
  | nil => simp [stableSortByKey]
  | cons x xs ih => exact pairwise_insertByKey key x _ ih

/-- Inserting `x` commutes with filtering by a predicate that only selects
elements of a single key class. -/
theorem filter_insertByKey {α : Type} (key : α → ℕ) (q : α → Bool)
    (hq : ∀ a b, q a = true → q b = true → key a = key b) (x : α) :
    ∀ l : List α, (insertByKey key x l).filter q =
      if q x then x :: l.filter q else l.filter q := by
  intro l
  induction l with
  | nil =>
    rw [insertByKey]
    cases hx : q x <;> simp [List.filter, hx]
  | cons y ys ih =>
    by_cases hc : key y < key x
    · have hqxy : ¬(q x = true ∧ q y = true) := by
        rintro ⟨hx, hy⟩
        exact absurd (hq y x hy hx) (Nat.ne_of_lt hc)
      rw [insertByKey, if_pos hc]
      by_cases hqx : q x = true
      · have hqy : q y = false := by
          cases hy : q y
          · rfl
          · exact absurd ⟨hqx, hy⟩ hqxy
        simp [List.filter, hqy, hqx, ih]
      · have hqx' : q x = false := by
          cases hx : q x
          · rfl
          · exact absurd hx hqx
        simp [List.filter, hqx', ih]
    · rw [insertByKey, if_neg hc]
      by_cases hqx : q x = true
      · simp [List.filter, hqx]
      · have hqx' : q x = false := by
          cases hx : q x
          · rfl
          · exact absurd hx hqx
        simp [List.filter, hqx']

/-- Stability: sorting preserves the relative order within any key class. -/
theorem filter_stableSortByKey {α : Type} (key : α → ℕ) (q : α → Bool)
    (hq : ∀ a b, q a = true → q b = true → key a = key b) :
    ∀ l : List α, (stableSortByKey key l).filter q = l.filter q := by
  intro l
  induction l with
  | nil => rfl
  | cons x xs ih =>
    rw [stableSortByKey, filter_insertByKey key q hq x, ih]
    by_cases hqx : q x = true
    · simp [List.filter, hqx]
    · have hqx' : q x = false := by
        cases hx : q x
        · rfl
        · exact absurd hx hqx
      simp [List.filter, hqx']

/-! ## Bound on the number of stability samples -/

theorem numPoints_ge_three {P : ProcessParameters} (h : 10 ≤ P.processTime) :
    3 ≤ numPoints P := by
  unfold numPoints
  have h5 : (2 : ℚ) ≤ P.processTime / 5 := by linarith
  have hf : (2 : ℤ) ≤ ⌊P.processTime / 5⌋ := Int.le_floor.mpr (by exact_mod_cast h5)
  have ht : 2 ≤ (⌊P.processTime / 5⌋).toNat := by omega
  omega

end Etch

namespace Etch

/-! ## Concrete instances used by witnesses and counterexamples

`oracleA` is a concrete oracle assigning constant values to the transcendental
functions; under it every grid cell of a run takes one closed value, which
makes concrete runs of the pipeline tractable to evaluate inside proofs.
The theorems about the engine are quantified over *all* oracles; these
instances only serve to exhibit concrete runs. -/

def oracleA : MathOracle :=
  { exp := fun _ => 1, sin := fun _ => 0, sqrt := fun _ => 0,
    log10 := fun _ => 0, pi := 3.14159 }

/-- Noise outcome with every `Math.random()` draw equal to 0.5 (all noise
terms vanish). -/
def noiseA : NoiseSource :=
  { cellRand := fun _ _ _ => 0.5, cdRand := 0.5, riskRand := 0.5,
    stabRand := fun _ => 0.5 }

/-- Noise outcome identical to `noiseA` except for the cd-shift draw. -/
def noiseB : NoiseSource :=
  { cellRand := fun _ _ _ => 0.5, cdRand := 10, riskRand := 0.5,
    stabRand := fun _ => 0.5 }

/-- A valid parameter set (high power, low pressure) whose run under
`oracleA`/`noiseA` yields status `warning` with no triggered recommendation. -/
def paramsWarn : ProcessParameters :=
  { rfPower := 2000, pressure := 1, gasFlowCF4 := 80, gasFlowO2 := 20,
    gasFlowAr := 50, pulseEnabled := false, pulseDutyCycle := none,
    pulseFrequency := none, processTime := 120, chamberRfHours := none }

/-- A valid parameter set whose run under `oracleA`/`noiseA` is `safe`. -/
def paramsSafe : ProcessParameters :=
  { rfPower := 1000, pressure := 20, gasFlowCF4 := 80, gasFlowO2 := 20,
    gasFlowAr := 50, pulseEnabled := false, pulseDutyCycle := none,
    pulseFrequency := none, processTime := 120, chamberRfHours := none }

/-- The common value of every grid cell under `oracleA` and zero cell noise. -/
def constCellA (P : ProcessParameters) : ℚ :=
  roundTo 4 (max 0.05 (baseGeneration P * pulseModulation oracleA P * 0.85))

theorem cellDensity_oracleA (N : NoiseSource) (P : ProcessParameters)
    (k i j : ℕ) (hN : N.cellRand k i j = 0.5) :
    cellDensity oracleA N P k i j = constCellA P := by
  unfold cellDensity constCellA oracleA
  simp only []
  rw [hN]
  split_ifs <;> · congr 1; congr 1; ring

end Etch

namespace Etch

theorem constCellA_pos (P : ProcessParameters) : 0 < constCellA P :=
  lt_of_lt_of_le (by norm_num) (roundTo4_max_ge _)

theorem sum_map_range_const (c : ℚ) (n : ℕ) :
    ((List.range n).map fun _ => c).sum = n * c := by
  induction n with
  | zero => simp
  | succ n ih =>
    rw [List.range_succ, List.map_append, List.sum_append]
    push_cast
    simp only [List.map_cons, List.map_nil, List.sum_cons, List.sum_nil, ih]
    ring

theorem layerSumVal_oracleA (N : NoiseSource) (P : ProcessParameters) (k : ℕ)
    (hN : ∀ a b c, N.cellRand a b c = 0.5) :
    layerSumVal oracleA N P k = 400 * constCellA P := by
  unfold layerSumVal
  have hrow : ∀ i, ((List.range gridX).map fun j =>
      cellDensity oracleA N P k i j).sum = 20 * constCellA P := by
    intro i
    rw [List.map_congr_left fun j _ => cellDensity_oracleA N P k i j (hN k i j)]
    have := sum_map_range_const (constCellA P) gridX
    rw [this]
    norm_num [gridX]
  rw [List.map_congr_left fun i _ => hrow i]
  have := sum_map_range_const (20 * constCellA P) gridY
  rw [this]
  norm_num [gridY]
  ring

theorem avgTopVal_oracleA (N : NoiseSource) (P : ProcessParameters)
    (hN : ∀ a b c, N.cellRand a b c = 0.5) :
    avgTopVal oracleA N P = constCellA P := by
  unfold avgTopVal
  rw [layerSumVal_oracleA N P (gridZ - 1) hN]
  norm_num [gridX, gridY]

theorem avgBottomVal_oracleA (N : NoiseSource) (P : ProcessParameters)
    (hN : ∀ a b c, N.cellRand a b c = 0.5) :
    avgBottomVal oracleA N P = constCellA P := by
  unfold avgBottomVal
  rw [layerSumVal_oracleA N P 0 hN]
  norm_num [gridX, gridY]

theorem avgEdgeVal_oracleA (N : NoiseSource) (P : ProcessParameters)
    (hN : ∀ a b c, N.cellRand a b c = 0.5) :
    avgEdgeVal oracleA N P = constCellA P := by
  unfold avgEdgeVal
  rw [cellDensity_oracleA N P midZ 0 10 (hN ..), cellDensity_oracleA N P midZ 19 10 (hN ..),
    cellDensity_oracleA N P midZ 10 0 (hN ..), cellDensity_oracleA N P midZ 10 19 (hN ..)]
  ring

theorem centerEdge_oracleA (N : NoiseSource) (P : ProcessParameters)
    (hN : ∀ a b c, N.cellRand a b c = 0.5) :
    (simulateRadicalDistribution oracleA N P).centerEdgeRatioVal = 1 := by
  show roundTo 3 (cellDensity oracleA N P midZ 10 10 / avgEdgeVal oracleA N P) = 1
  rw [cellDensity_oracleA N P midZ 10 10 (hN ..), avgEdgeVal_oracleA N P hN,
    div_self (ne_of_gt (constCellA_pos P))]
  norm_num [roundTo]

theorem topBottom_oracleA (N : NoiseSource) (P : ProcessParameters)
    (hN : ∀ a b c, N.cellRand a b c = 0.5) :
    (simulateRadicalDistribution oracleA N P).topBottomGradient = 1 := by
  show roundTo 3 (avgTopVal oracleA N P / avgBottomVal oracleA N P) = 1
  rw [avgTopVal_oracleA N P hN, avgBottomVal_oracleA N P hN,
    div_self (ne_of_gt (constCellA_pos P))]
  norm_num [roundTo]

end Etch

namespace Etch

theorem hef_paramsWarn (N : NoiseSource) :
    (simulateRadicalDistribution oracleA N paramsWarn).highEnergyFraction = 0.548 := by
  show roundTo 3 (0.15 + powerFactor paramsWarn * 0.2 - pressureFactor paramsWarn * 0.1) = 0.548
  norm_num [powerFactor, pressureFactor, paramsWarn, roundTo]

theorem uniformityRaw_eval (O : MathOracle) (P : ProcessParameters)
    (dist : RadicalDistribution) (h1 : dist.centerEdgeRatioVal = 1)
    (h2 : dist.topBottomGradient = 1) (hp : P.pulseEnabled = false)
    (hpr : ¬P.pressure > 60) : uniformityRaw O P dist = 100 := by
  unfold uniformityRaw
  rw [h1, h2]
  norm_num [hp, hpr]

end Etch

namespace Etch

theorem hef_paramsSafe (N : NoiseSource) :
    (simulateRadicalDistribution oracleA N paramsSafe).highEnergyFraction = 0.31 := by
  show roundTo 3 (0.15 + powerFactor paramsSafe * 0.2 - pressureFactor paramsSafe * 0.1) = 0.31
  norm_num [powerFactor, pressureFactor, paramsSafe, roundTo]

/-- Concrete run: `paramsSafe` under the zero-noise outcome is `safe`. -/
theorem pipelineQuality_safe :
    pipelineQuality oracleA noiseA paramsSafe =
      ({ etchUniformity := 99.5, cdShift := 0.18, defectRisk := DefectRisk.low,
         defectRiskScore := 0 }, Status.safe) := by
  have hN : ∀ a b c, noiseA.cellRand a b c = 0.5 := fun _ _ _ => rfl
  have h1 := centerEdge_oracleA noiseA paramsSafe hN
  have h2 := topBottom_oracleA noiseA paramsSafe hN
  have hu := uniformityRaw_eval oracleA paramsSafe
    (simulateRadicalDistribution oracleA noiseA paramsSafe) h1 h2 rfl (by norm_num [paramsSafe])
  simp only [pipelineQuality, predictQualityMetrics]
  rw [h1, h2, hef_paramsSafe noiseA, hu]
  norm_num [paramsSafe, noiseA, oracleA, computeStatus, roundTo, abs_le,
    max_def, min_def, Prod.mk.injEq, QualityMetrics.mk.injEq]

/-- Concrete run: `paramsWarn` with a large cd-shift noise draw gives status
`danger` and exactly one triggered recommendation. -/
theorem pipelineQuality_dangerB :
    pipelineQuality oracleA noiseB paramsWarn =
      ({ etchUniformity := 99.5, cdShift := 5.64, defectRisk := DefectRisk.medium,
         defectRiskScore := 37.9 }, Status.danger) := by
  have hN : ∀ a b c, noiseB.cellRand a b c = 0.5 := fun _ _ _ => rfl
  have h1 := centerEdge_oracleA noiseB paramsWarn hN
  have h2 := topBottom_oracleA noiseB paramsWarn hN
  have hu := uniformityRaw_eval oracleA paramsWarn
    (simulateRadicalDistribution oracleA noiseB paramsWarn) h1 h2 rfl (by norm_num [paramsWarn])
  simp only [pipelineQuality, predictQualityMetrics]
  rw [h1, h2, hef_paramsWarn noiseB, hu]
  norm_num [paramsWarn, noiseB, oracleA, computeStatus, roundTo, abs_le,
    max_def, min_def, Prod.mk.injEq, QualityMetrics.mk.injEq]

/-- The single recommendation emitted in the `noiseB` danger run. -/
def rfPowerRec : ParameterRecommendation :=
  { parameter := "RF Power", currentValue := 2000, recommendedValue := 1850,
    reason := "고에너지 라디칼 비율이 높아 CD Shift가 크게 발생합니다. RF Power를 낮춰주세요.",
    priority := Priority.high }

theorem pipelineRecommendations_dangerB :
    pipelineRecommendations oracleA noiseB paramsWarn = [rfPowerRec] := by
  have hN : ∀ a b c, noiseB.cellRand a b c = 0.5 := fun _ _ _ => rfl
  have h1 := centerEdge_oracleA noiseB paramsWarn hN
  have h2 := topBottom_oracleA noiseB paramsWarn hN
  unfold pipelineRecommendations
  rw [pipelineQuality_dangerB]
  simp only [generateRecommendations, collectRecommendations]
  rw [h1, h2, hef_paramsWarn noiseB]
  norm_num [paramsWarn, stableSortByKey, insertByKey, rfPowerRec, abs_le, lt_abs]
  decide

end Etch

namespace Etch

theorem layerSumVal_ge (O : MathOracle) (N : NoiseSource) (P : ProcessParameters)
    (k : ℕ) : (20 : ℚ) ≤ layerSumVal O N P k := by
  unfold layerSumVal
  have hinner : ∀ i, (1 : ℚ) ≤
      ((List.range gridX).map fun j => cellDensity O N P k i j).sum := by
    intro i
    have h := sum_map_range_ge (fun j => cellDensity O N P k i j) 0.05 gridX
      (fun j => cellDensity_ge O N P k i j)
    have hx : ((gridX : ℕ) : ℚ) * 0.05 = 1 := by norm_num [gridX]
    linarith
  have h := sum_map_range_ge
    (fun i => ((List.range gridX).map fun j => cellDensity O N P k i j).sum) 1 gridY hinner
  have hy : ((gridY : ℕ) : ℚ) * 1 = 20 := by norm_num [gridY]
  linarith

theorem length_flatten_const {α : Type} (L : List (List α)) (c : ℕ)
    (h : ∀ l ∈ L, l.length = c) : L.flatten.length = L.length * c := by
  induction L with
  | nil => simp
  | cons a t ih =>
    rw [List.flatten_cons, List.length_append, h a (List.mem_cons_self a t),
      ih fun l hl => h l (List.mem_cons_of_mem a hl)]
    simp [List.length_cons]
    ring

theorem allCellsVal_length (O : MathOracle) (N : NoiseSource)
    (P : ProcessParameters) : (allCellsVal O N P).length = 4000 := by
  unfold allCellsVal
  have hrows : ∀ r ∈ (mkGrid3D O N P).flatten, r.length = 20 := by
    intro r hr
    obtain ⟨layer, hlayer, hr⟩ := List.mem_flatten.mp hr
    obtain ⟨k, -, rfl⟩ := List.mem_map.mp hlayer
    obtain ⟨i, -, rfl⟩ := List.mem_map.mp hr
    simp [gridX]
  have hlayers : ∀ l ∈ mkGrid3D O N P, l.length = 20 := by
    intro l hl
    obtain ⟨k, -, rfl⟩ := List.mem_map.mp hl
    simp [gridY]
  rw [length_flatten_const _ 20 hrows, length_flatten_const _ 20 hlayers]
  simp [mkGrid3D, gridZ]

theorem allCellsVal_mem_ge (O : MathOracle) (N : NoiseSource)
    (P : ProcessParameters) : ∀ v ∈ allCellsVal O N P, (0.05 : ℚ) ≤ v := by
  intro v hv
  obtain ⟨row, hrow, hv⟩ := List.mem_flatten.mp hv
  obtain ⟨layer, hlayer, hrow⟩ := List.mem_flatten.mp hrow
  obtain ⟨k, -, rfl⟩ := List.mem_map.mp hlayer
  obtain ⟨i, -, rfl⟩ := List.mem_map.mp hrow
  obtain ⟨j, -, rfl⟩ := List.mem_map.mp hv
  exact cellDensity_ge O N P k i j

theorem getD_map_range {α : Type} (f : ℕ → α) (n i : ℕ) (d : α) (hi : i < n) :
    ((List.range n).map f).getD i d = f i := by
  rw [List.getD_eq_getElem?_getD]
  simp [List.getElem?_map, List.getElem?_range, hi]

/-- Dummy stability point used as the `getD` default in statements. -/
def dummyPoint : StabilityDataPoint := { time := 0, radicalDensity := 0, uniformity := 0, temperature := 0 }

/-- Arbitrary distribution record used to instantiate universally quantified
theorems at a concrete input. -/
def distBlank : RadicalDistribution :=
  { grid3D := [], grid := [], dimensions := (0, 0, 0), centerEdgeRatioVal := 1,
    topBottomGradient := 1, highEnergyFraction := 0.3, residenceTimeIndex := 10,
    verticalUniformity := 90, wallLossFactor := 0.1 }

/-- Arbitrary quality metrics record used to instantiate universally
quantified theorems at a concrete input. -/
def metricsBlank : QualityMetrics :=
  { etchUniformity := 95, cdShift := 1, defectRisk := DefectRisk.low,
    defectRiskScore := 10 }

theorem validParams_paramsWarn : ValidParams paramsWarn := by
  unfold ValidParams
  norm_num [paramsWarn]
  refine ⟨?_, ?_, ?_⟩
  all_goals intro x hx; simp [paramsWarn] at hx

end Etch

namespace Etch

/-! ## Claim theorems -/

/-- C2: the status rule partitions all metric triples: `safe` iff
uniformity ≥ 94 ∧ |cdShift| ≤ 2 ∧ risk = low; otherwise `warning` iff
uniformity ≥ 88 ∧ |cdShift| ≤ 4 ∧ risk ≠ high; otherwise `danger`, evaluated
in that precedence; and the three documented examples hold. -/
theorem c2_status_partition : ∀ (u c : ℚ) (r : DefectRisk),
    (computeStatus u c r = Status.safe ↔ (94 ≤ u ∧ |c| ≤ 2 ∧ r = DefectRisk.low)) ∧
    (computeStatus u c r = Status.warning ↔
      (¬(94 ≤ u ∧ |c| ≤ 2 ∧ r = DefectRisk.low) ∧
        (88 ≤ u ∧ |c| ≤ 4 ∧ r ≠ DefectRisk.high))) ∧
    (computeStatus u c r = Status.danger ↔
      (¬(94 ≤ u ∧ |c| ≤ 2 ∧ r = DefectRisk.low) ∧
        ¬(88 ≤ u ∧ |c| ≤ 4 ∧ r ≠ DefectRisk.high))) ∧
    computeStatus 95 0 DefectRisk.low = Status.safe ∧
    computeStatus 90 3 DefectRisk.medium = Status.warning ∧
    (∀ (c2 : ℚ) (r2 : DefectRisk), computeStatus 80 c2 r2 = Status.danger) := by
  intro u c r
  refine ⟨?_, ?_, ?_, ?_, ?_, ?_⟩
  · unfold computeStatus
    split_ifs with hs hw
    · simp [hs]
    · simp [hs]
    · simp [hs]
  · unfold computeStatus
    split_ifs with hs hw
    · simp [hs]
    · simp [hs, hw]
    · simp [hs, hw]
  · unfold computeStatus
    split_ifs with hs hw
    · simp [hs]
    · simp [hs, hw]
    · simp [hs, hw]
  · norm_num [computeStatus, abs_le]
  · norm_num [computeStatus, abs_le]
    decide
  · intro c2 r2
    unfold computeStatus
    rw [if_neg fun hcon => by norm_num at hcon, if_neg fun hcon => by norm_num at hcon]

/-- C5: whatever the oracle, noise, parameters and distribution, the reported
etch uniformity is clamped to [50, 99.5]; 1-digit rounding preserves the
interval (the canonical 3D implementation floors at 50). -/
theorem c5_uniformity_clamped (O : MathOracle) (N : NoiseSource)
    (P : ProcessParameters) (dist : RadicalDistribution) :
    50 ≤ (predictQualityMetrics O N P dist).1.etchUniformity ∧
    (predictQualityMetrics O N P dist).1.etchUniformity ≤ 99.5 := by
  have hlo : ((500 : ℤ) : ℚ) / 10 ^ 1 ≤ max 50 (min 99.5 (uniformityRaw O P dist)) :=
    le_trans (by norm_num) (le_max_left _ _)
  have hhi : max 50 (min 99.5 (uniformityRaw O P dist)) ≤ ((995 : ℤ) : ℚ) / 10 ^ 1 :=
    max_le (by norm_num) (le_trans (min_le_left _ _) (by norm_num))
  have h1 := roundTo_ge hlo
  have h2 := roundTo_le hhi
  have he : (predictQualityMetrics O N P dist).1.etchUniformity =
      roundTo 1 (max 50 (min 99.5 (uniformityRaw O P dist))) := rfl
  rw [he]
  constructor
  · calc (50 : ℚ) = ((500 : ℤ) : ℚ) / 10 ^ 1 := by norm_num
      _ ≤ _ := h1
  · calc roundTo 1 (max 50 (min 99.5 (uniformityRaw O P dist))) ≤
        ((995 : ℤ) : ℚ) / 10 ^ 1 := h2
      _ = 99.5 := by norm_num

end Etch

namespace Etch

/-- C9: `highEnergyFraction` and `residenceTimeIndex` are independent of the
random noise and equal the documented closed forms in the parameters alone. -/
theorem c9_descriptors_deterministic (O : MathOracle) (N N' : NoiseSource)
    (P : ProcessParameters) :
    (simulateRadicalDistribution O N P).highEnergyFraction =
      (simulateRadicalDistribution O N' P).highEnergyFraction ∧
    (simulateRadicalDistribution O N P).residenceTimeIndex =
      (simulateRadicalDistribution O N' P).residenceTimeIndex ∧
    (simulateRadicalDistribution O N P).highEnergyFraction =
      roundTo 3 (0.15 + P.rfPower / 1000 * 0.2 - P.pressure / 50 * 0.1) ∧
    (simulateRadicalDistribution O N P).residenceTimeIndex =
      roundTo 2 (10 / (P.pressure / 50) * (1 + P.gasFlowAr / 100 * 0.2)) :=
  ⟨rfl, rfl, rfl, rfl⟩

/-- C8: the yield rate is always clamped to [30, 99], and the estimated batch
profit is a well-defined bounded number: with 25 wafers, 150 USD wafer cost,
200 USD selling price and 50% scrap recovery it always lies in [-3700, 975]. -/
theorem c8_roi_bounds (P : ProcessParameters) (m : QualityMetrics)
    (status : Status) :
    30 ≤ (calculateRoiMetrics P m status).yieldRate ∧
    (calculateRoiMetrics P m status).yieldRate ≤ 99 ∧
    -3700 ≤ (calculateRoiMetrics P m status).estimatedBatchProfit ∧
    (calculateRoiMetrics P m status).estimatedBatchProfit ≤ 975 := by
  set y2 := (if m.defectRisk = DefectRisk.medium then m.etchUniformity * 0.8 - 10
    else if m.defectRisk = DefectRisk.high then m.etchUniformity * 0.8 - 25
    else m.etchUniformity * 0.8) - |m.cdShift| * 2 with hy2
  have hyr : (calculateRoiMetrics P m status).yieldRate =
      roundTo 1 (max 30 (min 99 y2)) := rfl
  have hpr : (calculateRoiMetrics P m status).estimatedBatchProfit =
      roundTo 0 ((⌊(25 : ℚ) * max 30 (min 99 y2) / 100⌋ : ℚ) * 200 - 25 * 150 -
        (25 - (⌊(25 : ℚ) * max 30 (min 99 y2) / 100⌋ : ℚ)) * 150 * 0.5) := rfl
  have h30 : (30 : ℚ) ≤ max 30 (min 99 y2) := le_max_left _ _
  have h99 : max 30 (min 99 y2) ≤ 99 :=
    max_le (by norm_num) (min_le_left _ _)
  have hg1 : (7 : ℤ) ≤ ⌊(25 : ℚ) * max 30 (min 99 y2) / 100⌋ := by
    apply Int.le_floor.mpr
    push_cast
    linarith
  have hg2 : ⌊(25 : ℚ) * max 30 (min 99 y2) / 100⌋ ≤ 24 := by
    have : ⌊(25 : ℚ) * max 30 (min 99 y2) / 100⌋ < 25 := by
      apply Int.floor_lt.mpr
      push_cast
      linarith
    omega
  have hgq1 : (7 : ℚ) ≤ (⌊(25 : ℚ) * max 30 (min 99 y2) / 100⌋ : ℚ) := by
    exact_mod_cast hg1
  have hgq2 : ((⌊(25 : ℚ) * max 30 (min 99 y2) / 100⌋ : ℤ) : ℚ) ≤ 24 := by
    exact_mod_cast hg2
  refine ⟨?_, ?_, ?_, ?_⟩
  · rw [hyr]
    calc (30 : ℚ) = ((300 : ℤ) : ℚ) / 10 ^ 1 := by norm_num
      _ ≤ _ := roundTo_ge (le_trans (by norm_num) h30)
  · rw [hyr]
    calc roundTo 1 (max 30 (min 99 y2)) ≤ ((990 : ℤ) : ℚ) / 10 ^ 1 :=
        roundTo_le (le_trans h99 (by norm_num))
      _ = 99 := by norm_num
  · rw [hpr]
    calc (-3700 : ℚ) = ((-3700 : ℤ) : ℚ) / 10 ^ 0 := by norm_num
      _ ≤ _ := roundTo_ge (by push_cast; linarith)
  · rw [hpr]
    calc roundTo 0 _ ≤ ((975 : ℤ) : ℚ) / 10 ^ 0 :=
        roundTo_le (by push_cast; linarith)
      _ = 975 := by norm_num

/-- C1 (amended): the recommendation list of a prediction has length at most
3, and when the computed status is `safe` it is empty.  (The converse — empty
only when safe — is false; see the counterexample.) -/
theorem c1_recommendation_cap (O : MathOracle) (N : NoiseSource)
    (P : ProcessParameters) :
    (pipelineRecommendations O N P).length ≤ 3 ∧
    ((pipelineQuality O N P).2 = Status.safe →
      pipelineRecommendations O N P = []) := by
  constructor
  · unfold pipelineRecommendations generateRecommendations
    split_ifs
    · simp
    · rw [List.length_take]
      exact min_le_left _ _
  · intro h
    unfold pipelineRecommendations generateRecommendations
    rw [if_pos h]

/-- Witness for C1 (amended) at a concrete safe run. -/
theorem c1_recommendation_cap_witness :
    (pipelineRecommendations oracleA noiseA paramsSafe).length ≤ 3 ∧
    pipelineRecommendations oracleA noiseA paramsSafe = [] :=
  ⟨(c1_recommendation_cap oracleA noiseA paramsSafe).1,
   (c1_recommendation_cap oracleA noiseA paramsSafe).2 (by rw [pipelineQuality_safe])⟩

end Etch

namespace Etch

/-- C3: every density cell of the generated 3D grid — and hence of the 2D
mid-height slice — is at least 0.05, for every oracle, noise outcome and
parameter set: the floor is applied after the multiplicative noise and
4-digit rounding preserves it. -/
theorem c3_density_floor (O : MathOracle) (N : NoiseSource)
    (P : ProcessParameters) :
    (∀ v ∈ (simulateRadicalDistribution O N P).grid3D.flatten.flatten,
      (0.05 : ℚ) ≤ v) ∧
    (∀ v ∈ (simulateRadicalDistribution O N P).grid.flatten, (0.05 : ℚ) ≤ v) := by
  constructor
  · intro v hv
    exact allCellsVal_mem_ge O N P v hv
  · intro v hv
    have hg : (simulateRadicalDistribution O N P).grid =
        (List.range gridY).map (fun i => (List.range gridX).map fun j =>
          cellDensity O N P midZ i j) := rfl
    rw [hg] at hv
    obtain ⟨row, hrow, hv⟩ := List.mem_flatten.mp hv
    obtain ⟨i, -, rfl⟩ := List.mem_map.mp hrow
    obtain ⟨j, -, rfl⟩ := List.mem_map.mp hv
    exact cellDensity_ge O N P midZ i j

/-- Witness for C3 at a concrete grid cell of a concrete run. -/
theorem c3_density_floor_witness :
    (0.05 : ℚ) ≤ cellDensity oracleA noiseA paramsWarn midZ 0 0 := by
  apply (c3_density_floor oracleA noiseA paramsWarn).2
  have hg : (simulateRadicalDistribution oracleA noiseA paramsWarn).grid =
      (List.range gridY).map (fun i => (List.range gridX).map fun j =>
        cellDensity oracleA noiseA paramsWarn midZ i j) := rfl
  rw [hg]
  apply List.mem_flatten.mpr
  refine ⟨(List.range gridX).map (fun j => cellDensity oracleA noiseA paramsWarn midZ 0 j),
    ?_, ?_⟩
  · exact List.mem_map_of_mem _ (List.mem_range.mpr (by norm_num [gridY]))
  · exact List.mem_map_of_mem _ (List.mem_range.mpr (by norm_num [gridX]))

/-- C4: for validated parameters the engine is total — every denominator it
divides by is nonzero: the mid-height edge average, the bottom-layer average,
the population mean of the grid, the center-column average (all ≥ 0.05 by the
density floor), the pressure factor (pressure ≥ 1), and `numPoints - 1`
(at least 3 samples). -/
theorem c4_division_safety (O : MathOracle) (N : NoiseSource)
    (P : ProcessParameters) (h : ValidParams P) :
    0 < avgEdgeVal O N P ∧ 0 < avgBottomVal O N P ∧ 0 < mean3DVal O N P ∧
    0 < centerAvgVal O N P ∧ 0 < pressureFactor P ∧ 3 ≤ numPoints P := by
  obtain ⟨-, -, hp1, -, -, -, -, -, -, -, -, -, hpt, -, -⟩ := h
  refine ⟨?_, ?_, ?_, ?_, ?_, numPoints_ge_three hpt⟩
  · unfold avgEdgeVal
    have h1 := cellDensity_ge O N P midZ 0 10
    have h2 := cellDensity_ge O N P midZ 19 10
    have h3 := cellDensity_ge O N P midZ 10 0
    have h4 := cellDensity_ge O N P midZ 10 19
    linarith
  · unfold avgBottomVal
    have hl := layerSumVal_ge O N P 0
    have hc : (((gridX * gridY : ℕ)) : ℚ) = 400 := by norm_num [gridX, gridY]
    rw [hc]
    linarith
  · unfold mean3DVal
    have hs := sum_ge_of_forall_mem (allCellsVal O N P) 0.05 (allCellsVal_mem_ge O N P)
    rw [allCellsVal_length] at hs
    rw [allCellsVal_length]
    have : (200 : ℚ) ≤ (allCellsVal O N P).sum := by
      calc (200 : ℚ) = (4000 : ℕ) * 0.05 := by norm_num
        _ ≤ _ := hs
    apply div_pos (by linarith) (by norm_num)
  · unfold centerAvgVal
    have hs := sum_map_range_ge (fun k => cellDensity O N P k 10 10) 0.05 gridZ
      (fun k => cellDensity_ge O N P k 10 10)
    have hz : ((gridZ : ℕ) : ℚ) = 10 := by norm_num [gridZ]
    rw [hz] at hs ⊢
    apply div_pos (by linarith) (by norm_num)
  · unfold pressureFactor
    apply div_pos (by linarith) (by norm_num)

/-- Witness for C4 at a concrete valid parameter set. -/
theorem c4_division_safety_witness :
    0 < avgEdgeVal oracleA noiseA paramsWarn ∧
    0 < avgBottomVal oracleA noiseA paramsWarn ∧
    0 < mean3DVal oracleA noiseA paramsWarn ∧
    0 < centerAvgVal oracleA noiseA paramsWarn ∧
    0 < pressureFactor paramsWarn ∧ 3 ≤ numPoints paramsWarn :=
  c4_division_safety oracleA noiseA paramsWarn validParams_paramsWarn

end Etch

namespace Etch

/-- C6: for validated parameters the stability series has exactly
`min 60 (floor(processTime/5)+1)` samples; sample `i` stores the evenly
spaced time `i/(numPoints-1) * processTime` rounded to 1 decimal digit, so
the first sample's time is 0 and the last sample's time is `processTime` up
to that rounding. -/
theorem c6_stability_series (O : MathOracle) (N : NoiseSource)
    (P : ProcessParameters) (dist : RadicalDistribution) (m : QualityMetrics)
    (h : ValidParams P) :
    (generateStabilityTimeSeries O N P dist m).length =
      min 60 ((⌊P.processTime / 5⌋).toNat + 1) ∧
    (∀ i < numPoints P,
      ((generateStabilityTimeSeries O N P dist m).getD i dummyPoint).time =
        roundTo 1 ((i : ℚ) / ((numPoints P : ℚ) - 1) * P.processTime)) ∧
    ((generateStabilityTimeSeries O N P dist m).getD 0 dummyPoint).time = 0 ∧
    ((generateStabilityTimeSeries O N P dist m).getD (numPoints P - 1)
        dummyPoint).time = roundTo 1 P.processTime := by
  obtain ⟨-, -, -, -, -, -, -, -, -, -, -, -, hpt, -, -⟩ := h
  have hnp := numPoints_ge_three hpt
  refine ⟨?_, ?_, ?_, ?_⟩
  · simp [generateStabilityTimeSeries, numPoints]
  · intro i hi
    unfold generateStabilityTimeSeries
    rw [getD_map_range _ _ _ _ hi]
    rfl
  · unfold generateStabilityTimeSeries
    rw [getD_map_range _ _ _ _ (by omega : 0 < numPoints P)]
    show roundTo 1 (((0 : ℕ) : ℚ) / ((numPoints P : ℚ) - 1) * P.processTime) = 0
    norm_num [roundTo]
  · unfold generateStabilityTimeSeries
    rw [getD_map_range _ _ _ _ (by omega : numPoints P - 1 < numPoints P)]
    show roundTo 1 (((numPoints P - 1 : ℕ) : ℚ) / ((numPoints P : ℚ) - 1) *
      P.processTime) = roundTo 1 P.processTime
    have h1 : 1 ≤ numPoints P := by omega
    have hc : ((numPoints P - 1 : ℕ) : ℚ) = (numPoints P : ℚ) - 1 := by
      rw [Nat.cast_sub h1]
      norm_num
    have h3 : (3 : ℚ) ≤ (numPoints P : ℚ) := by exact_mod_cast hnp
    rw [hc, div_self (by linarith), one_mul]

/-- Witness for C6 at a concrete valid run (binder-free conjuncts). -/
theorem c6_stability_series_witness :
    (generateStabilityTimeSeries oracleA noiseA paramsWarn distBlank
        metricsBlank).length = min 60 ((⌊paramsWarn.processTime / 5⌋).toNat + 1) ∧
    ((generateStabilityTimeSeries oracleA noiseA paramsWarn distBlank
        metricsBlank).getD 0 dummyPoint).time = 0 ∧
    ((generateStabilityTimeSeries oracleA noiseA paramsWarn distBlank
        metricsBlank).getD (numPoints paramsWarn - 1) dummyPoint).time =
      roundTo 1 paramsWarn.processTime :=
  ⟨(c6_stability_series oracleA noiseA paramsWarn distBlank metricsBlank
      validParams_paramsWarn).1,
   (c6_stability_series oracleA noiseA paramsWarn distBlank metricsBlank
      validParams_paramsWarn).2.2.1,
   (c6_stability_series oracleA noiseA paramsWarn distBlank metricsBlank
      validParams_paramsWarn).2.2.2⟩

/-- C7: the returned recommendation list is sorted by priority (high before
medium before low, non-decreasing priority rank), the sort is stable (within
each priority class the trigger-evaluation order survives), and for non-safe
status the result is the first 3 of the sorted trigger list. -/
theorem c7_recommendations_sorted (P : ProcessParameters)
    (dist : RadicalDistribution) (m : QualityMetrics) (status : Status) :
    (generateRecommendations P dist m status).Pairwise
      (fun a b => priorityOrder a.priority ≤ priorityOrder b.priority) ∧
    (∀ p : Priority,
      ((stableSortByKey (fun rc => priorityOrder rc.priority)
          (collectRecommendations P dist m)).filter fun rc => rc.priority == p) =
        ((collectRecommendations P dist m).filter fun rc => rc.priority == p)) ∧
    (status ≠ Status.safe →
      generateRecommendations P dist m status =
        (stableSortByKey (fun rc => priorityOrder rc.priority)
          (collectRecommendations P dist m)).take 3) := by
  refine ⟨?_, ?_, ?_⟩
  · unfold generateRecommendations
    split_ifs
    · exact List.Pairwise.nil
    · exact ((pairwise_stableSortByKey _ _).sublist (List.take_sublist _ _))
  · intro p
    apply filter_stableSortByKey
    intro a b ha hb
    rw [beq_iff_eq] at ha hb
    rw [ha, hb]
  · intro hne
    unfold generateRecommendations
    rw [if_neg hne]

/-- Witness for C7 at a concrete non-safe input. -/
theorem c7_recommendations_sorted_witness :
    (generateRecommendations paramsWarn distBlank metricsBlank
        Status.danger).Pairwise
      (fun a b => priorityOrder a.priority ≤ priorityOrder b.priority) ∧
    generateRecommendations paramsWarn distBlank metricsBlank Status.danger =
      (stableSortByKey (fun rc => priorityOrder rc.priority)
        (collectRecommendations paramsWarn distBlank metricsBlank)).take 3 :=
  ⟨(c7_recommendations_sorted paramsWarn distBlank metricsBlank Status.danger).1,
   (c7_recommendations_sorted paramsWarn distBlank metricsBlank Status.danger).2.2
     (fun hc => Status.noConfusion hc)⟩

/-- C10: the assembled result's `recommendations` field is `none` exactly
when the generated list is empty, and otherwise holds exactly that list —
the field is omitted rather than set to an empty array (which can happen
even for non-safe status, as every trigger is guarded). -/
theorem c10_recommendations_field (O : MathOracle) (N : NoiseSource)
    (P : ProcessParameters) (idv tsv : String) :
    ((generatePrediction O N P idv tsv).recommendations = none ↔
      pipelineRecommendations O N P = []) ∧
    (pipelineRecommendations O N P ≠ [] →
      (generatePrediction O N P idv tsv).recommendations =
        some (pipelineRecommendations O N P)) := by
  have hrec : (generatePrediction O N P idv tsv).recommendations =
      (if 0 < (pipelineRecommendations O N P).length then
        some (pipelineRecommendations O N P) else none) := rfl
  rw [hrec]
  generalize pipelineRecommendations O N P = L
  cases L with
  | nil => simp
  | cons a t => simp

/-- Witness for C10 at a concrete run with a non-empty recommendation list. -/
theorem c10_recommendations_field_witness :
    (generatePrediction oracleA noiseB paramsWarn "id0" "ts0").recommendations =
      some (pipelineRecommendations oracleA noiseB paramsWarn) :=
  (c10_recommendations_field oracleA noiseB paramsWarn "id0" "ts0").2
    (by rw [pipelineRecommendations_dangerB]; simp)

end Etch

namespace Etch

/-! ## A faithful concrete run refuting "empty iff safe" (claim C1)

Tracing routes.ts with the real `Math` functions at rfPower=2000,
pressure=50, CF4=80, O2=50, Ar=150, pulse off gives centerEdgeRatio = 1.436,
highEnergyFraction = 0.45, cdShift = 1.47, a medium defect risk (score ≈ 43)
and status `danger` — yet no recommendation trigger fires (ratio ≤ 1.5;
Ar = 150 disables both Ar triggers; |cdShift| ≤ 3 disables the cd-shift
group; pressure = 50 and CF4 = 80 disable the high-risk group), so the real
program returns an empty recommendation list for a non-safe status.  The
oracle below reproduces that trace exactly: at each of the finitely many
arguments consulted by the five mid-height cells of this run, `exp` and
`sin` take the value of the corresponding real function rounded to 6
decimal digits, and `sqrt` is exact (√0 = 0, √1 = 1, √0.81 = 0.9); the
values at other arguments are never consulted by the counterexample. -/
def oracleC : MathOracle :=
  { exp := fun q =>
      if q = 0 then 1
      else if q = -17/90 then 0.827878
      else if q = -20/9 then 0.108368
      else if q = -3/5 then 0.548812
      else if q = -243/500 then 0.615082
      else if q = -49/250 then 0.822012
      else if q = -3969/25000 then 0.853201
      else if q = -2 then 0.135335
      else if q = -81/50 then 0.197899
      else 1
    sin := fun q => if q = 314159/180000 then 0.984808 else 0
    sqrt := fun q => if q = 0 then 0 else if q = 1 then 1
      else if q = 81/100 then 9/10 else q
    log10 := fun _ => 0
    pi := 3.14159 }

/-- The valid parameter set of the C1 counterexample run. -/
def paramsC : ProcessParameters :=
  { rfPower := 2000, pressure := 50, gasFlowCF4 := 80, gasFlowO2 := 50,
    gasFlowAr := 150, pulseEnabled := false, pulseDutyCycle := none,
    pulseFrequency := none, processTime := 120, chamberRfHours := none }

theorem validParams_paramsC : ValidParams paramsC := by
  unfold ValidParams
  norm_num [paramsC]
  refine ⟨?_, ?_, ?_⟩
  all_goals intro x hx; simp [paramsC] at hx

theorem cellC_center : cellDensity oracleC noiseA paramsC midZ 10 10 = 1.9107 := by
  unfold cellDensity
  norm_num [oracleC, noiseA, paramsC, powerFactor, pressureFactor, cf4Flow,
    arFlow, rfHoursVal, agingFactor, agingEdgePenalty, baseGeneration,
    pulseModulation, wallLossCoeff, injectionDecayRate, gridX, gridY, gridZ,
    midZ, roundTo, max_def, abs_of_nonneg, abs_of_nonpos]

end Etch

namespace Etch

theorem cellC_edge1 : cellDensity oracleC noiseA paramsC midZ 0 10 = 1.2789 := by
  unfold cellDensity
  norm_num [oracleC, noiseA, paramsC, powerFactor, pressureFactor, cf4Flow,
    arFlow, rfHoursVal, agingFactor, agingEdgePenalty, baseGeneration,
    pulseModulation, wallLossCoeff, injectionDecayRate, gridX, gridY, gridZ,
    midZ, roundTo, max_def, abs_of_nonneg, abs_of_nonpos]

theorem cellC_edge2 : cellDensity oracleC noiseA paramsC midZ 10 0 = 1.2789 := by
  unfold cellDensity
  norm_num [oracleC, noiseA, paramsC, powerFactor, pressureFactor, cf4Flow,
    arFlow, rfHoursVal, agingFactor, agingEdgePenalty, baseGeneration,
    pulseModulation, wallLossCoeff, injectionDecayRate, gridX, gridY, gridZ,
    midZ, roundTo, max_def, abs_of_nonneg, abs_of_nonpos]

theorem cellC_edge3 : cellDensity oracleC noiseA paramsC midZ 19 10 = 1.3817 := by
  unfold cellDensity
  norm_num [oracleC, noiseA, paramsC, powerFactor, pressureFactor, cf4Flow,
    arFlow, rfHoursVal, agingFactor, agingEdgePenalty, baseGeneration,
    pulseModulation, wallLossCoeff, injectionDecayRate, gridX, gridY, gridZ,
    midZ, roundTo, max_def, abs_of_nonneg, abs_of_nonpos]

theorem cellC_edge4 : cellDensity oracleC noiseA paramsC midZ 10 19 = 1.3817 := by
  unfold cellDensity
  norm_num [oracleC, noiseA, paramsC, powerFactor, pressureFactor, cf4Flow,
    arFlow, rfHoursVal, agingFactor, agingEdgePenalty, baseGeneration,
    pulseModulation, wallLossCoeff, injectionDecayRate, gridX, gridY, gridZ,
    midZ, roundTo, max_def, abs_of_nonneg, abs_of_nonpos]

/-- The center/edge ratio of the counterexample run, matching the real
trace: 1.9107 / ((2·1.2789 + 2·1.3817)/4) rounded to 3 digits. -/
theorem centerEdgeC :
    (simulateRadicalDistribution oracleC noiseA paramsC).centerEdgeRatioVal = 1.436 := by
  show roundTo 3 (cellDensity oracleC noiseA paramsC midZ 10 10 /
    avgEdgeVal oracleC noiseA paramsC) = 1.436
  unfold avgEdgeVal
  rw [cellC_center, cellC_edge1, cellC_edge2, cellC_edge3, cellC_edge4]
  norm_num [roundTo]

theorem hefC :
    (simulateRadicalDistribution oracleC noiseA paramsC).highEnergyFraction = 0.45 := by
  show roundTo 3 (0.15 + powerFactor paramsC * 0.2 - pressureFactor paramsC * 0.1) = 0.45
  norm_num [powerFactor, pressureFactor, paramsC, roundTo]

/-- The cd shift of the counterexample run: (1.436−1)·2 + (0.45−0.25)·3
with the zero noise draw, rounded to 2 digits. -/
theorem cdShiftC : (pipelineQuality oracleC noiseA paramsC).1.cdShift = 1.47 := by
  simp only [pipelineQuality, predictQualityMetrics]
  rw [centerEdgeC, hefC]
  norm_num [noiseA, roundTo]

end Etch

namespace Etch

theorem computeStatus_safe_risk (u c : ℚ) (r : DefectRisk)
    (h : computeStatus u c r = Status.safe) : r = DefectRisk.low := by
  unfold computeStatus at h
  split_ifs at h with h1 h2
  exact h1.2.2

theorem pipelineQuality_safe_risk (O : MathOracle) (N : NoiseSource)
    (P : ProcessParameters) (h : (pipelineQuality O N P).2 = Status.safe) :
    (pipelineQuality O N P).1.defectRisk = DefectRisk.low :=
  computeStatus_safe_risk _ _ _ h

/-- The defect risk of the counterexample run is not `low`: already without
the gradient term, riskScore ≥ 0.436·30 + 0.1·50 + 500/50 = 28.08 ≥ 25. -/
theorem defectRiskC_ne_low :
    (pipelineQuality oracleC noiseA paramsC).1.defectRisk ≠ DefectRisk.low := by
  have hg : (0 : ℚ) ≤
      |(simulateRadicalDistribution oracleC noiseA paramsC).topBottomGradient - 1| :=
    abs_nonneg _
  have habs : |(1.436 : ℚ) - 1| = 0.436 := by
    rw [abs_of_nonneg] <;> norm_num
  simp only [pipelineQuality, predictQualityMetrics]
  rw [centerEdgeC, hefC, habs]
  rw [if_neg (by norm_num : ¬(1.436 : ℚ) > 1.5)]
  split_ifs with h1 h2
  · exfalso
    apply absurd h1
    apply not_lt.mpr
    apply le_min (by norm_num)
    apply le_max_of_le_right
    have e1 : paramsC.rfPower = 2000 := rfl
    have e2 : paramsC.pressure = 50 := rfl
    have e3 : noiseA.riskRand = 0.5 := rfl
    rw [e1, e2, e3]
    norm_num [max_def]
    linarith [hg]
  · simp
  · simp

theorem statusC_ne_safe : (pipelineQuality oracleC noiseA paramsC).2 ≠ Status.safe :=
  fun h => defectRiskC_ne_low (pipelineQuality_safe_risk oracleC noiseA paramsC h)

/-- No recommendation trigger fires in the counterexample run: the ratio
group needs ratio > 1.5 (it is 1.436); both Ar triggers need gasFlowAr < 80
resp. < 100 (it is 150); the cd-shift group needs |cdShift| > 3 (it is
1.47); the high-risk group needs pressure < 15 or CF4 > 80 (they are 50 and
80). -/
theorem pipelineRecommendationsC :
    pipelineRecommendations oracleC noiseA paramsC = [] := by
  have hc : collectRecommendations paramsC
      (simulateRadicalDistribution oracleC noiseA paramsC)
      (pipelineQuality oracleC noiseA paramsC).1 = [] := by
    unfold collectRecommendations
    rw [centerEdgeC, cdShiftC]
    norm_num [paramsC, lt_abs]
  unfold pipelineRecommendations generateRecommendations
  split_ifs with hst
  · rfl
  · rw [hc]
    rfl

/-- C1 counterexample: a valid parameter set whose run — with the oracle
matching the real transcendental values of this trace — has a non-safe
status and an empty recommendation list, so "empty iff safe" fails in the
code; the real-math trace of routes.ts at this input behaves identically
(status danger, no triggers). -/
theorem c1_empty_iff_safe_counterexample :
    ValidParams paramsC ∧
    (pipelineQuality oracleC noiseA paramsC).2 ≠ Status.safe ∧
    pipelineRecommendations oracleC noiseA paramsC = [] :=
  ⟨validParams_paramsC, statusC_ne_safe, pipelineRecommendationsC⟩

end Etch
